import Mathlib

/-!
Shallow embedding of the customer authentication controller
(src/controllers/customer.js) of the atto_project backend, together with the
ephemeral key-value store (redis hashes) and the identity repository it uses.
Time is modelled in whole seconds as a natural number; moment() arithmetic
(add minutes/hours, diff in seconds, isBefore/isAfter) becomes plain Nat
arithmetic.
-/

/-- A redis hash (one key space): an association list with map semantics.
hGet returns the first binding for the key. -/
def hGet [DecidableEq κ] : List (κ × α) → κ → Option α
  | [], _ => none
  | (k', v) :: t, k => if k' = k then some v else hGet t k

/-- redis hDel: remove every binding for the key. -/
def hDel [DecidableEq κ] : List (κ × α) → κ → List (κ × α)
  | [], _ => []
  | (k', v) :: t, k => if k' = k then hDel t k else (k', v) :: hDel t k

/-- redis hSet: bind the key to the value, superseding prior bindings. -/
def hSet [DecidableEq κ] (h : List (κ × α)) (k : κ) (v : α) : List (κ × α) :=
  (k, v) :: hDel h k

theorem hGet_hSet_self [DecidableEq κ] (h : List (κ × α)) (k : κ) (v : α) :
    hGet (hSet h k v) k = some v := by
  simp [hSet, hGet]

theorem hGet_hDel_self [DecidableEq κ] (h : List (κ × α)) (k : κ) :
    hGet (hDel h k) k = none := by
  induction h with
  | nil => simp [hDel, hGet]
  | cons kv t ih =>
      obtain ⟨k', v⟩ := kv
      by_cases hk : k' = k
      · simp [hDel, hk, ih]
      · simp [hDel, hGet, hk, ih]

theorem hGet_hDel_ne [DecidableEq κ] (h : List (κ × α)) (k k' : κ) (hne : k' ≠ k) :
    hGet (hDel h k) k' = hGet h k' := by
  induction h with
  | nil => simp [hDel]
  | cons kv t ih =>
      obtain ⟨a, v⟩ := kv
      by_cases hk : a = k
      · have hak : k ≠ k' := fun hh => hne hh.symm
        simp [hDel, hGet, hk, hak, ih]
      · by_cases ha : a = k'
        · simp [hDel, hGet, hk, ha, hne]
        · simp [hDel, hGet, hk, ha, ih]

theorem hGet_hSet_ne [DecidableEq κ] (h : List (κ × α)) (k k' : κ) (v : α)
    (hne : k' ≠ k) : hGet (hSet h k v) k' = hGet h k' := by
  have hkk : k ≠ k' := fun hh => hne hh.symm
  simp [hSet, hGet, hkk, hGet_hDel_ne h k k' hne]

/-! ## Data model -/

/-- A customer row of the identity repository (relational store). The
hashed_password field is an Option because the profile handler deletes the
field from the fetched object before responding. -/
structure Customer where
  id : Nat
  phone : Nat
  name : String
  hashed_password : Option String
  image_url : Option String
deriving DecidableEq, Repr

/-- The identity repository: customer rows plus trusted-device associations
(customer id, device uid). -/
structure DBState where
  customers : List Customer
  devices : List (Nat × String)
deriving DecidableEq, Repr

/-- A session-token record stored in the tokens hash:
JSON.stringify of id, role, expiresAt. -/
structure TokenRecord where
  id : Nat
  role : String
  expiresAt : Nat
deriving DecidableEq, Repr

/-- A one-time-code record stored in the otp hash: code and expiresAt. -/
structure OtpRecord where
  code : Nat
  expiresAt : Nat
deriving DecidableEq, Repr

/-- A login-attempt record stored in the customer_login hash. -/
structure LoginStatus where
  last_login_attempt : Option Nat
  safe_login_after : Nat
  is_blocked : Bool
deriving DecidableEq, Repr

/-- The ephemeral store: the four redis hashes the controller touches.
customers maps identity id to its current token (sessions-by-identity index),
tokens maps token string to its record, otp and customer_login are keyed by
phone number. -/
structure RedisState where
  customers : List (Nat × String)
  tokens : List (String × TokenRecord)
  otp : List (Nat × OtpRecord)
  customer_login : List (Nat × LoginStatus)
deriving DecidableEq, Repr

/-- The empty in-memory customerStatus object used when no customer_login
record exists for the phone: all fields absent (undefined reads as falsy). -/
def emptyStatus : LoginStatus :=
  { last_login_attempt := none, safe_login_after := 0, is_blocked := false }

/-- bcrypt.hashSync modelled as an injective tagging of the password. -/
def bcryptHash (pw : String) : String := String.append "bcrypt-" pw

/-- bcrypt.compareSync(password, hash): the stored hash matches exactly the
hash of the submitted password. -/
def bcryptCompare (pw : String) (stored : Option String) : Bool :=
  match stored with
  | some h => h == bcryptHash pw
  | none => false

/-- customersQuery.getOneByPhone: first customer row with the phone. -/
def findCustomerByPhone (db : DBState) (phone : Nat) : Option Customer :=
  db.customers.find? (fun c => c.phone == phone)

/-- customersQuery.getOneById: first customer row with the id. -/
def findCustomerById (db : DBState) (cid : Nat) : Option Customer :=
  db.customers.find? (fun c => c.id == cid)

/-- devicesQuery.getOneByUid(deviceId, phone): is the device uid a trusted
device of the customer owning the phone (join of devices and customers). -/
def deviceTrusted (db : DBState) (deviceId : String) (phone : Nat) : Bool :=
  match findCustomerByPhone db phone with
  | none => false
  | some c => db.devices.any (fun d => d.1 == c.id && d.2 == deviceId)

/-- The numeric value of a decimal digit character, if it is one. -/
def digitVal (c : Char) : Option Nat :=
  if 48 ≤ c.toNat ∧ c.toNat ≤ 57 then some (c.toNat - 48) else none

/-- Accumulate further leading digits (parseInt stops at the first
non-digit). -/
def parseIntPrefix : List Char → Nat → Nat
  | [], acc => acc
  | c :: rest, acc =>
    match digitVal c with
    | some d => parseIntPrefix rest (acc * 10 + d)
    | none => acc

/-- JavaScript parseInt on a trimmed submission: the value of the longest
leading run of decimal digits, or NaN (none) when there is none. -/
def parseInt (s : String) : Option Nat :=
  match s.data with
  | [] => none
  | c :: rest =>
    match digitVal c with
    | some d => some (parseIntPrefix rest d)
    | none => none

/-- Numeric comparison of the stored code with the parsed submission
(otpObject.code === parseInt(otp); a NaN parse is never equal). -/
def otpMatches (o : OtpRecord) (submitted : String) : Bool :=
  match parseInt submitted with
  | some n => o.code == n
  | none => false

/-! ## loginCustomer (src/controllers/customer.js lines 213-415), split by
waterfall step -/

/-- Step: check if customer is not blocked (lines 257-279). Loads the
customer_login record; when is_blocked and now is still before
last_login_attempt plus one minute, fail with USER_BLOCKED carrying the
seconds left; when the window has elapsed (or the instant is absent, i.e.
an invalid moment), clear last_login_attempt and is_blocked and continue. -/
def checkBlockedStep (stored : Option LoginStatus) (now : Nat) :
    Except Nat LoginStatus :=
  match stored with
  | none => Except.ok emptyStatus
  | some st =>
    if st.is_blocked then
      match st.last_login_attempt with
      | some last =>
        if now < last + 60 then Except.error (last + 60 - now)
        else Except.ok { st with last_login_attempt := none, is_blocked := false }
      | none => Except.ok { st with last_login_attempt := none, is_blocked := false }
    else Except.ok st

/-- Result of the otp credential check (lines 306-322): either the stored
code is past its expiry (EXPIRED_OTP, record deleted), or the check ran,
deleting the record exactly on success. -/
inductive OtpCheck where
  | expired (store : List (Nat × OtpRecord))
  | checked (valid : Bool) (store : List (Nat × OtpRecord))
deriving DecidableEq, Repr

/-- Step: check otp (lines 306-322). No stored code means invalid; a stored
code with expiresAt strictly before now is deleted and reported expired
(moment().isAfter); a matching code with now strictly before expiresAt
(moment().isBefore) is deleted and valid; otherwise invalid, record kept. -/
def checkOtpCred (store : List (Nat × OtpRecord)) (phone : Nat)
    (submitted : String) (now : Nat) : OtpCheck :=
  match hGet store phone with
  | none => OtpCheck.checked false store
  | some o =>
    if o.expiresAt < now then OtpCheck.expired (hDel store phone)
    else if otpMatches o submitted && now < o.expiresAt then
      OtpCheck.checked true (hDel store phone)
    else OtpCheck.checked false store

/-- Step: record a failed attempt (lines 326-347). When a prior
last_login_attempt exists and now is still before it plus safe_login_after
seconds, the customer becomes blocked (safe_login_after reset to 0);
otherwise safe_login_after becomes max(60 - secondsSince(last), 0) when a
prior attempt exists, else 0. last_login_attempt is set to now in every
case. -/
def recordFailure (st : LoginStatus) (now : Nat) : LoginStatus :=
  match st.last_login_attempt with
  | some last =>
    if now < last + st.safe_login_after then
      { last_login_attempt := some now, safe_login_after := 0, is_blocked := true }
    else
      { last_login_attempt := some now,
        safe_login_after := max (60 - (now - last)) 0,
        is_blocked := st.is_blocked }
  | none =>
      { last_login_attempt := some now, safe_login_after := 0,
        is_blocked := st.is_blocked }

/-- Steps: delete old token, save and return new token (lines 377-407).
The sessions-by-identity index is read; a present old token has its tokens
record deleted; the index is pointed at the new token and the new token
record is stored with a one-hour expiry. -/
def issueToken (rs : RedisState) (cid : Nat) (tok : String) (now : Nat) :
    RedisState :=
  let rs1 :=
    match hGet rs.customers cid with
    | some oldToken => { rs with tokens := hDel rs.tokens oldToken }
    | none => rs
  { rs1 with
    customers := hSet rs1.customers cid tok,
    tokens := hSet rs1.tokens tok { id := cid, role := "customer", expiresAt := now + 3600 } }

/-- The structured outcomes of loginCustomer: a token on success, or one of
the kind-tagged errors of the controller. -/
inductive LoginResult where
  | ok (token : String)
  | validationError
  | userNotFound
  | userBlocked (timeLeft : Nat)
  | wrongPassword
  | wrongOtp
  | expiredOtp
deriving DecidableEq, Repr

/-- The validated request body and x-device-id header of a login call. -/
structure LoginInput where
  phone : Nat
  deviceId : String
  password : Option String
  otp : Option String
  trust : Bool
deriving DecidableEq, Repr

/-- Success tail of loginCustomer (lines 363-407): reset login attempts,
trust the device when asked, supersede the old token, store the new one. -/
def loginSuccess (db : DBState) (rs : RedisState) (inp : LoginInput)
    (customer : Customer) (now : Nat) (newToken : String) :
    LoginResult × RedisState × DBState :=
  let rs1 := { rs with customer_login := hDel rs.customer_login customer.phone }
  let db1 :=
    if inp.trust then { db with devices := (customer.id, inp.deviceId) :: db.devices }
    else db
  (LoginResult.ok newToken, issueToken rs1 customer.id newToken now, db1)

/-- Failure tail of loginCustomer (lines 326-361): record the failed attempt
under the customer phone, then report USER_BLOCKED(60) when the record became
blocked, else WRONG_PASSWORD or WRONG_OTP by login type. -/
def loginFailure (db : DBState) (rs : RedisState) (customer : Customer)
    (status : LoginStatus) (now : Nat) (isOtpType : Bool) :
    LoginResult × RedisState × DBState :=
  let status1 := recordFailure status now
  let rs1 := { rs with customer_login := hSet rs.customer_login customer.phone status1 }
  if status1.is_blocked then (LoginResult.userBlocked 60, rs1, db)
  else if isOtpType then (LoginResult.wrongOtp, rs1, db)
  else (LoginResult.wrongPassword, rs1, db)

/-- loginCustomer (lines 213-415). Parameters beyond the request: the two
backing stores, the current instant, and the fresh uuid v4 token. Returns
the outcome and both stores after the call. -/
def loginCustomer (db : DBState) (rs : RedisState) (inp : LoginInput)
    (now : Nat) (newToken : String) : LoginResult × RedisState × DBState :=
  if inp.deviceId = "" then (LoginResult.validationError, rs, db)
  else
    match findCustomerByPhone db inp.phone with
    | none => (LoginResult.userNotFound, rs, db)
    | some customer =>
      match checkBlockedStep (hGet rs.customer_login inp.phone) now with
      | Except.error timeLeft => (LoginResult.userBlocked timeLeft, rs, db)
      | Except.ok status =>
        if deviceTrusted db inp.deviceId inp.phone then
          match inp.otp with
          | none => (LoginResult.validationError, rs, db)
          | some otpStr =>
            if otpStr = "" then (LoginResult.validationError, rs, db)
            else
              match checkOtpCred rs.otp customer.phone otpStr now with
              | OtpCheck.expired store1 =>
                  (LoginResult.expiredOtp, { rs with otp := store1 }, db)
              | OtpCheck.checked valid store1 =>
                  if valid then
                    loginSuccess db { rs with otp := store1 } inp customer now newToken
                  else
                    loginFailure db { rs with otp := store1 } customer status now true
        else
          match inp.password with
          | none => (LoginResult.validationError, rs, db)
          | some pw =>
            if pw = "" then (LoginResult.validationError, rs, db)
            else if bcryptCompare pw customer.hashed_password then
              loginSuccess db rs inp customer now newToken
            else
              loginFailure db rs customer status now false

/-! ## Token validation, login-method query, registration, otp getter,
profile read -/

/-- Modelled from the spec: the verifyToken middleware / SessionManager
validate operation is not under src (only its callers are). Per section 4.4,
validate(token) looks up the token record; absent or expiry at or before now
is Invalid (none); else the associated identity id and role are returned. -/
def validateToken (rs : RedisState) (token : String) (now : Nat) :
    Option (Nat × String) :=
  match hGet rs.tokens token with
  | none => none
  | some r => if r.expiresAt ≤ now then none else some (r.id, r.role)

/-- Outcome of getCustomerLoginType: the response object with the password
and otp flags, or an error. -/
inductive LoginTypeResult where
  | methods (password : Bool) (otp : Bool)
  | userNotFound
  | validationError
deriving DecidableEq, Repr

/-- getCustomerLoginType (lines 151-210). Parameters beyond the request: the
stores, the drawn random (Math.random scaled: the code becomes 100000 plus
randomCode mod 900000) and the current instant. When the customer exists and
the device uid is present and trusted, a fresh otp record with a two-minute
expiry is written under the phone and the otp method is chosen; otherwise
the password method is chosen and nothing is written. -/
def getCustomerLoginType (db : DBState) (rs : RedisState) (phone : Nat)
    (deviceId : Option String) (randomCode : Nat) (now : Nat) :
    LoginTypeResult × RedisState :=
  match findCustomerByPhone db phone with
  | none => (LoginTypeResult.userNotFound, rs)
  | some _ =>
    match deviceId with
    | none => (LoginTypeResult.methods true false, rs)
    | some d =>
      if d = "" then (LoginTypeResult.methods true false, rs)
      else if deviceTrusted db d phone then
        let otpObject : OtpRecord :=
          { code := 100000 + randomCode % 900000, expiresAt := now + 120 }
        (LoginTypeResult.methods false true,
          { rs with otp := hSet rs.otp phone otpObject })
      else (LoginTypeResult.methods true false, rs)

/-- The validated registration request body and x-device-id header. -/
structure RegInput where
  name : String
  phone : Nat
  password : String
  trust : Bool
  deviceId : Option String
deriving DecidableEq, Repr

/-- Which of the fallible effectful registration steps fail on this run
(a database error on identity creation, a redis error on either token write,
a database error on trusted-device creation). -/
structure RegFailures where
  failCreate : Bool
  failCustomerTokenSet : Bool
  failTokenRecordSet : Bool
  failDeviceCreate : Bool
deriving DecidableEq, Repr

/-- Outcome of registerCustomer. -/
inductive RegResult where
  | ok (token : String)
  | validationError
  | numberTaken
  | dbError
  | storeError
deriving DecidableEq, Repr

/-- The LIVR rules of registerCustomer (lines 58-64) on the shape the model
keeps: name between 3 and 64 characters, password at least 6, and a device
uid required when trust is set. (Phone-format and alphanumeric rules live in
the external validation util, out of scope.) -/
def validRegInput (i : RegInput) : Bool :=
  3 ≤ i.name.length && i.name.length ≤ 64 && 6 ≤ i.password.length &&
    (!i.trust || (match i.deviceId with | some d => d ≠ "" | none => false))

/-- customersQuery.delete: remove the customer row with the id (the
registration compensation). -/
def deleteCustomerById (db : DBState) (cid : Nat) : DBState :=
  { db with customers := db.customers.filter (fun c => c.id != cid) }

/-- registerCustomer (lines 47-148). Parameters beyond the request: the
stores, the current instant, the fresh row id the repository assigns, the
fresh uuid v4 token, and the failure pattern of the run. On any error after
the identity row exists, the final callback deletes the row (best-effort,
its own error ignored) and propagates the original error. -/
def registerCustomer (db : DBState) (rs : RedisState) (inp : RegInput)
    (now : Nat) (newId : Nat) (newToken : String) (f : RegFailures) :
    RegResult × RedisState × DBState :=
  if ¬ validRegInput inp then (RegResult.validationError, rs, db)
  else
    match findCustomerByPhone db inp.phone with
    | some _ => (RegResult.numberTaken, rs, db)
    | none =>
      if f.failCreate then (RegResult.dbError, rs, db)
      else
        let newCustomer : Customer :=
          { id := newId, phone := inp.phone, name := inp.name,
            hashed_password := some (bcryptHash inp.password), image_url := none }
        let db1 : DBState := { db with customers := newCustomer :: db.customers }
        if f.failCustomerTokenSet then
          (RegResult.storeError, rs, deleteCustomerById db1 newId)
        else
          let rs1 := { rs with customers := hSet rs.customers newId newToken }
          if f.failTokenRecordSet then
            (RegResult.storeError, rs1, deleteCustomerById db1 newId)
          else
            let newTokenRecord : TokenRecord :=
              { id := newId, role := "customer", expiresAt := now + 3600 }
            let rs2 :=
              { rs1 with tokens := hSet rs1.tokens newToken newTokenRecord }
            if inp.trust && f.failDeviceCreate then
              (RegResult.storeError, rs2, deleteCustomerById db1 newId)
            else
              let db2 :=
                if inp.trust then
                  { db1 with devices := (newId, inp.deviceId.getD "") :: db1.devices }
                else db1
              (RegResult.ok newToken, rs2, db2)

/-- getOtpFromSMS (lines 669-683), routed unauthenticated at
/otp/recievebysms/:phone: read the otp hash at the phone and send the stored
code as text, or an empty body when nothing is stored. -/
def getOtpFromSMS (rs : RedisState) (phone : Nat) : String × RedisState :=
  match hGet rs.otp phone with
  | none => ("", rs)
  | some o => (toString o.code, rs)

/-- Modelled from the spec: fileStorageS3.getFileUrl is not under src
(asset serving is an out-of-scope collaborator); it maps a stored file name
to its public URL and a missing name to null. -/
def getFileUrl (f : Option String) : Option String :=
  f.map (fun n => String.append "files/" n)

/-- The JSON serialization of a customer object: one entry per present
field (a deleted field simply does not appear). -/
def customerJson (c : Customer) : List (String × String) :=
  [("id", toString c.id), ("phone", toString c.phone), ("name", c.name)]
    ++ (match c.hashed_password with
        | some h => [("hashed_password", h)]
        | none => [])
    ++ [("image_url", match c.image_url with | some u => u | none => "null")]

/-- Outcome of getCustomerProfile: the serialized profile or an error. -/
inductive ProfileResult where
  | ok (fields : List (String × String))
  | authError
  | userNotFound
deriving DecidableEq, Repr

/-- getCustomerProfile (lines 16-44): verify the customer token, fetch the
row by id, delete its hashed_password field, map image_url through the file
store, respond with the serialized object. -/
def getCustomerProfile (db : DBState) (rs : RedisState) (token : String)
    (now : Nat) : ProfileResult :=
  match validateToken rs token now with
  | none => ProfileResult.authError
  | some (cid, role) =>
    if role = "customer" then
      match findCustomerById db cid with
      | none => ProfileResult.userNotFound
      | some c =>
        ProfileResult.ok (customerJson
          { c with hashed_password := none, image_url := getFileUrl c.image_url })
    else ProfileResult.authError

/-! ## Helper lemmas -/

theorem findCustomerByPhone_phone (db : DBState) (phone : Nat) (c : Customer)
    (h : findCustomerByPhone db phone = some c) : c.phone = phone := by
  unfold findCustomerByPhone at h
  have hp := List.find?_some h
  simpa using hp

theorem issueToken_otp (rs : RedisState) (cid : Nat) (tok : String) (now : Nat) :
    (issueToken rs cid tok now).otp = rs.otp := by
  unfold issueToken
  cases h : hGet rs.customers cid <;> simp [h]

theorem issueToken_customer_login (rs : RedisState) (cid : Nat) (tok : String)
    (now : Nat) : (issueToken rs cid tok now).customer_login = rs.customer_login := by
  unfold issueToken
  cases h : hGet rs.customers cid <;> simp [h]

theorem findCustomerById_deleteCustomerById (db : DBState) (cid : Nat) :
    findCustomerById (deleteCustomerById db cid) cid = none := by
  unfold findCustomerById deleteCustomerById
  rw [List.find?_eq_none]
  intro c hc
  have hmem := List.mem_filter.mp hc
  simpa using hmem.2

/-- loginCustomer reduces to the failure tail on an untrusted device with a
nonempty wrong password, once the block gate passes. -/
theorem loginCustomer_password_fail_eq (db : DBState) (rs : RedisState)
    (inp : LoginInput) (now : Nat) (tok : String) (c : Customer)
    (st : LoginStatus) (pw : String)
    (hdev : inp.deviceId ≠ "")
    (hc : findCustomerByPhone db inp.phone = some c)
    (hst : checkBlockedStep (hGet rs.customer_login inp.phone) now = Except.ok st)
    (htrust : deviceTrusted db inp.deviceId inp.phone = false)
    (hpw : inp.password = some pw) (hpw0 : pw ≠ "")
    (hcmp : bcryptCompare pw c.hashed_password = false) :
    loginCustomer db rs inp now tok = loginFailure db rs c st now false := by
  unfold loginCustomer
  simp [hdev, hc, hst, htrust, hpw, hpw0, hcmp]

/-- loginCustomer reduces to the success tail on an untrusted device with the
correct nonempty password, once the block gate passes. -/
theorem loginCustomer_password_ok_eq (db : DBState) (rs : RedisState)
    (inp : LoginInput) (now : Nat) (tok : String) (c : Customer)
    (st : LoginStatus) (pw : String)
    (hdev : inp.deviceId ≠ "")
    (hc : findCustomerByPhone db inp.phone = some c)
    (hst : checkBlockedStep (hGet rs.customer_login inp.phone) now = Except.ok st)
    (htrust : deviceTrusted db inp.deviceId inp.phone = false)
    (hpw : inp.password = some pw) (hpw0 : pw ≠ "")
    (hcmp : bcryptCompare pw c.hashed_password = true) :
    loginCustomer db rs inp now tok = loginSuccess db rs inp c now tok := by
  unfold loginCustomer
  simp [hdev, hc, hst, htrust, hpw, hpw0, hcmp]

/-- loginCustomer reduces to the otp credential check on a trusted device
with a nonempty submitted otp, once the block gate passes. -/
theorem loginCustomer_otp_eq (db : DBState) (rs : RedisState)
    (inp : LoginInput) (now : Nat) (tok : String) (c : Customer)
    (st : LoginStatus) (otpStr : String)
    (hdev : inp.deviceId ≠ "")
    (hc : findCustomerByPhone db inp.phone = some c)
    (hst : checkBlockedStep (hGet rs.customer_login inp.phone) now = Except.ok st)
    (htrust : deviceTrusted db inp.deviceId inp.phone = true)
    (hotp : inp.otp = some otpStr) (ho0 : otpStr ≠ "") :
    loginCustomer db rs inp now tok =
      (match checkOtpCred rs.otp c.phone otpStr now with
       | OtpCheck.expired store1 =>
           (LoginResult.expiredOtp, { rs with otp := store1 }, db)
       | OtpCheck.checked valid store1 =>
           if valid then
             loginSuccess db { rs with otp := store1 } inp c now tok
           else
             loginFailure db { rs with otp := store1 } c st now true) := by
  unfold loginCustomer
  simp [hdev, hc, hst, htrust, hotp, ho0]

/-- Running loginCustomer repeatedly for one request body, threading both
stores, at the given sequence of instants and fresh tokens; returns the
outcome of every run and the final stores. -/
def loginRuns (db : DBState) (rs : RedisState) (inp : LoginInput) :
    List (Nat × String) → List LoginResult × RedisState × DBState
  | [] => ([], rs, db)
  | (now, tok) :: rest =>
    let r := loginCustomer db rs inp now tok
    let rr := loginRuns r.2.2 r.2.1 inp rest
    (r.1 :: rr.1, rr.2)

/-! ## Claim theorems -/

/-- C1: for a phone with no prior customer_login record, three failed
credential checks within 60 seconds of each other (all three mutually within
one minute) yield NowBlocked on the third check: the first two report
WRONG_PASSWORD and the third reports USER_BLOCKED with 60 seconds left. -/
theorem loginCustomer_three_rapid_failures_block
    (db : DBState) (rs : RedisState) (phone : Nat)
    (deviceId pw tok1 tok2 tok3 : String) (c : Customer) (t1 t2 t3 : Nat)
    (hdev : deviceId ≠ "") (hpw0 : pw ≠ "")
    (hc : findCustomerByPhone db phone = some c)
    (hclear : hGet rs.customer_login phone = none)
    (htrust : deviceTrusted db deviceId phone = false)
    (hcmp : bcryptCompare pw c.hashed_password = false)
    (h12 : t1 ≤ t2) (h23 : t2 ≤ t3) (h13 : t3 < t1 + 60) :
    (loginRuns db rs ⟨phone, deviceId, some pw, none, false⟩
        [(t1, tok1), (t2, tok2), (t3, tok3)]).1 =
      [LoginResult.wrongPassword, LoginResult.wrongPassword,
       LoginResult.userBlocked 60] := by
  have hcp : c.phone = phone := findCustomerByPhone_phone db phone c hc
  have hst1 : checkBlockedStep (hGet rs.customer_login phone) t1 =
      Except.ok emptyStatus := by
    rw [hclear]
    rfl
  have e1 : loginCustomer db rs ⟨phone, deviceId, some pw, none, false⟩ t1 tok1 =
      (LoginResult.wrongPassword, { rs with customer_login := hSet rs.customer_login phone ⟨some t1, 0, false⟩ }, db) := by
    rw [loginCustomer_password_fail_eq db rs _ t1 tok1 c emptyStatus pw hdev hc
        hst1 htrust rfl hpw0 hcmp]
    simp [loginFailure, recordFailure, emptyStatus, hcp]
  have hst2 : checkBlockedStep
      (hGet (hSet rs.customer_login phone ⟨some t1, 0, false⟩) phone) t2 =
      Except.ok ⟨some t1, 0, false⟩ := by
    rw [hGet_hSet_self]
    rfl
  have h2lt : ¬ (t2 < t1) := by omega
  have e2 : loginCustomer db
      { rs with customer_login := hSet rs.customer_login phone ⟨some t1, 0, false⟩ }
      ⟨phone, deviceId, some pw, none, false⟩ t2 tok2 =
      (LoginResult.wrongPassword, { rs with customer_login := hSet (hSet rs.customer_login phone ⟨some t1, 0, false⟩) phone ⟨some t2, (60 - (t2 - t1)), false⟩ }, db) := by
    rw [loginCustomer_password_fail_eq db _ _ t2 tok2 c ⟨some t1, 0, false⟩ pw
        hdev hc hst2 htrust rfl hpw0 hcmp]
    simp [loginFailure, recordFailure, hcp, h2lt]
  have hst3 : checkBlockedStep
      (hGet (hSet (hSet rs.customer_login phone ⟨some t1, 0, false⟩) phone
        ⟨some t2, (60 - (t2 - t1)), false⟩) phone) t3 =
      Except.ok ⟨some t2, (60 - (t2 - t1)), false⟩ := by
    rw [hGet_hSet_self]
    rfl
  have h3lt : t3 < t2 + (60 - (t2 - t1)) := by omega
  have e3 : loginCustomer db
      { rs with customer_login := hSet (hSet rs.customer_login phone ⟨some t1, 0, false⟩) phone ⟨some t2, (60 - (t2 - t1)), false⟩ }
      ⟨phone, deviceId, some pw, none, false⟩ t3 tok3 =
      (LoginResult.userBlocked 60, { rs with customer_login := hSet (hSet (hSet rs.customer_login phone ⟨some t1, 0, false⟩) phone ⟨some t2, (60 - (t2 - t1)), false⟩) phone ⟨some t3, 0, true⟩ }, db) := by
    rw [loginCustomer_password_fail_eq db _ _ t3 tok3 c
        ⟨some t2, (60 - (t2 - t1)), false⟩ pw hdev hc hst3 htrust rfl
        hpw0 hcmp]
    simp [loginFailure, recordFailure, hcp, h3lt]
  simp [loginRuns, e1, e2, e3]

/-- Concrete customer row used by the witnesses. -/
def wcust : Customer :=
  { id := 1, phone := 998901234567, name := "user",
    hashed_password := some (bcryptHash "secret1"), image_url := none }

/-- Concrete identity repository used by the witnesses: one customer, no
trusted devices. -/
def wdb : DBState := { customers := [wcust], devices := [] }

/-- Concrete identity repository with the device dev1 trusted for the
customer. -/
def wdbTrusted : DBState := { customers := [wcust], devices := [(1, "dev1")] }

/-- Concrete empty ephemeral store used by the witnesses. -/
def wrs : RedisState :=
  { customers := [], tokens := [], otp := [], customer_login := [] }

/-- Witness for C1 at a concrete input: three wrong-password attempts at
instants 0, 50 and 59. -/
theorem loginCustomer_three_rapid_failures_block_witness :
    (loginRuns wdb wrs ⟨998901234567, "dev1", some "wrong1", none, false⟩
        [(0, "T1"), (50, "T2"), (59, "T3")]).1 =
      [LoginResult.wrongPassword, LoginResult.wrongPassword,
       LoginResult.userBlocked 60] :=
  loginCustomer_three_rapid_failures_block wdb wrs 998901234567 "dev1" "wrong1"
    "T1" "T2" "T3" wcust 0 50 59 (by decide) (by decide) rfl rfl rfl
    (by decide) (by decide) (by decide) (by decide)

/-- C2: while a phone is blocked and the one-minute window from
last_login_attempt has not elapsed, loginCustomer returns USER_BLOCKED with
the remaining seconds whatever credential is submitted, and leaves both
stores exactly as they were (the credential is never evaluated). -/
theorem loginCustomer_still_blocked (db : DBState) (rs : RedisState)
    (inp : LoginInput) (now : Nat) (tok : String) (c : Customer)
    (st : LoginStatus) (t : Nat)
    (hdev : inp.deviceId ≠ "")
    (hc : findCustomerByPhone db inp.phone = some c)
    (hst : hGet rs.customer_login inp.phone = some st)
    (hb : st.is_blocked = true)
    (hlast : st.last_login_attempt = some t)
    (hwin : now < t + 60) :
    loginCustomer db rs inp now tok =
      (LoginResult.userBlocked (t + 60 - now), rs, db) := by
  unfold loginCustomer
  simp [hdev, hc, checkBlockedStep, hst, hb, hlast, hwin]

/-- Concrete blocked store used by the C2 witness: blocked at instant 100,
queried at instant 130 with the correct password. -/
def wrsBlocked : RedisState :=
  { customers := [], tokens := [], otp := [],
    customer_login := [(998901234567, ⟨some 100, 0, true⟩)] }

/-- Witness for C2 at a concrete input: a blocked customer presenting the
correct password 30 seconds into the window is refused with 30 seconds left
and nothing changes. -/
theorem loginCustomer_still_blocked_witness :
    loginCustomer wdb wrsBlocked ⟨998901234567, "dev1", some "secret1", none, false⟩ 130 "T9" =
      (LoginResult.userBlocked 30, wrsBlocked, wdb) :=
  loginCustomer_still_blocked wdb wrsBlocked
    ⟨998901234567, "dev1", some "secret1", none, false⟩ 130 "T9" wcust
    ⟨some 100, 0, true⟩ 100 (by decide) rfl rfl rfl rfl (by decide)

/-- C3 counterexample: with a trusted device, the login-method query is not
side-effect-free — it writes an otp record, so the store after the call
differs from the store before. -/
theorem getCustomerLoginType_side_effect_counterexample :
    (getCustomerLoginType wdbTrusted wrs 998901234567 (some "dev1") 0 0).2 ≠ wrs := by
  decide

/-- C3 amended: the login-method decision answers otp exactly when a device
uid is supplied and (deviceId, phone) is a trusted-device association, and
password otherwise (in particular always password with no device uid); when
the answer is password every store is left unchanged, but when the answer is
otp a fresh one-time code with a two-minute expiry is stored under the phone
— the query is not side-effect-free in that case. -/
theorem getCustomerLoginType_method_and_effect (db : DBState) (rs : RedisState)
    (phone : Nat) (deviceId : Option String) (randomCode now : Nat)
    (c : Customer) (hc : findCustomerByPhone db phone = some c) :
    ((getCustomerLoginType db rs phone deviceId randomCode now).1 =
        LoginTypeResult.methods true false ∨
     (getCustomerLoginType db rs phone deviceId randomCode now).1 =
        LoginTypeResult.methods false true) ∧
    ((getCustomerLoginType db rs phone deviceId randomCode now).1 =
        LoginTypeResult.methods false true ↔
      (∃ d, deviceId = some d ∧ d ≠ "" ∧ deviceTrusted db d phone = true)) ∧
    ((getCustomerLoginType db rs phone deviceId randomCode now).1 =
        LoginTypeResult.methods true false →
      (getCustomerLoginType db rs phone deviceId randomCode now).2 = rs) ∧
    ((getCustomerLoginType db rs phone deviceId randomCode now).1 =
        LoginTypeResult.methods false true →
      (getCustomerLoginType db rs phone deviceId randomCode now).2 =
        { rs with otp := hSet rs.otp phone ⟨100000 + randomCode % 900000, now + 120⟩ }) := by
  unfold getCustomerLoginType
  rw [hc]
  cases deviceId with
  | none => simp
  | some d =>
      by_cases hd : d = ""
      · simp [hd]
      · by_cases ht : deviceTrusted db d phone
        · simp [hd, ht]
        · simp [hd, ht]

/-- Witness for C3 amended at a concrete input: a trusted device yields the
otp method and exactly the otp write. -/
theorem getCustomerLoginType_method_and_effect_witness :
    ((getCustomerLoginType wdbTrusted wrs 998901234567 (some "dev1") 0 0).1 =
        LoginTypeResult.methods true false ∨
     (getCustomerLoginType wdbTrusted wrs 998901234567 (some "dev1") 0 0).1 =
        LoginTypeResult.methods false true) ∧
    ((getCustomerLoginType wdbTrusted wrs 998901234567 (some "dev1") 0 0).1 =
        LoginTypeResult.methods false true ↔
      (∃ d, (some "dev1" : Option String) = some d ∧ d ≠ "" ∧
        deviceTrusted wdbTrusted d 998901234567 = true)) ∧
    ((getCustomerLoginType wdbTrusted wrs 998901234567 (some "dev1") 0 0).1 =
        LoginTypeResult.methods true false →
      (getCustomerLoginType wdbTrusted wrs 998901234567 (some "dev1") 0 0).2 = wrs) ∧
    ((getCustomerLoginType wdbTrusted wrs 998901234567 (some "dev1") 0 0).1 =
        LoginTypeResult.methods false true →
      (getCustomerLoginType wdbTrusted wrs 998901234567 (some "dev1") 0 0).2 =
        { wrs with otp := hSet wrs.otp 998901234567 ⟨100000 + 0 % 900000, 0 + 120⟩ }) :=
  getCustomerLoginType_method_and_effect wdbTrusted wrs 998901234567
    (some "dev1") 0 0 wcust rfl

/-- C4: a stored, unexpired one-time code validated with the matching
submission logs the customer in and deletes the otp record; resubmitting the
same code for the same phone right after is judged invalid (WRONG_OTP). -/
theorem loginCustomer_otp_single_use (db : DBState) (rs : RedisState)
    (phone : Nat) (deviceId otpStr tok1 tok2 : String) (c : Customer)
    (o : OtpRecord) (t1 t2 : Nat)
    (hdev : deviceId ≠ "") (ho0 : otpStr ≠ "")
    (hc : findCustomerByPhone db phone = some c)
    (hclear : hGet rs.customer_login phone = none)
    (htrust : deviceTrusted db deviceId phone = true)
    (hotp : hGet rs.otp c.phone = some o)
    (hmatch : otpMatches o otpStr = true)
    (hexp : t1 < o.expiresAt) :
    (loginRuns db rs ⟨phone, deviceId, none, some otpStr, false⟩
        [(t1, tok1), (t2, tok2)]).1 =
      [LoginResult.ok tok1, LoginResult.wrongOtp] ∧
    hGet (loginCustomer db rs ⟨phone, deviceId, none, some otpStr, false⟩
        t1 tok1).2.1.otp c.phone = none := by
  have hcp : c.phone = phone := findCustomerByPhone_phone db phone c hc
  have hst1 : checkBlockedStep (hGet rs.customer_login phone) t1 =
      Except.ok emptyStatus := by
    rw [hclear]
    rfl
  have hnexp : ¬ (o.expiresAt < t1) := by omega
  have hchk : checkOtpCred rs.otp c.phone otpStr t1 =
      OtpCheck.checked true (hDel rs.otp c.phone) := by
    simp [checkOtpCred, hotp, hnexp, hmatch, hexp]
  have e1 : loginCustomer db rs ⟨phone, deviceId, none, some otpStr, false⟩ t1 tok1 =
      loginSuccess db { rs with otp := hDel rs.otp c.phone }
        ⟨phone, deviceId, none, some otpStr, false⟩ c t1 tok1 := by
    rw [loginCustomer_otp_eq db rs _ t1 tok1 c emptyStatus otpStr hdev hc hst1
        htrust rfl ho0, hchk]
    rfl
  have hfst1 : (loginCustomer db rs ⟨phone, deviceId, none, some otpStr, false⟩ t1 tok1).1 =
      LoginResult.ok tok1 := by
    rw [e1]
    simp [loginSuccess]
  have hdb1 : (loginCustomer db rs ⟨phone, deviceId, none, some otpStr, false⟩ t1 tok1).2.2 = db := by
    rw [e1]
    simp [loginSuccess]
  have hcl1 : (loginCustomer db rs ⟨phone, deviceId, none, some otpStr, false⟩ t1 tok1).2.1.customer_login =
      hDel rs.customer_login c.phone := by
    rw [e1]
    simp [loginSuccess, issueToken_customer_login]
  have hotp1 : (loginCustomer db rs ⟨phone, deviceId, none, some otpStr, false⟩ t1 tok1).2.1.otp =
      hDel rs.otp c.phone := by
    rw [e1]
    simp [loginSuccess, issueToken_otp]
  have e2 : ∀ rs2 : RedisState,
      rs2.customer_login = hDel rs.customer_login c.phone →
      rs2.otp = hDel rs.otp c.phone →
      (loginCustomer db rs2 ⟨phone, deviceId, none, some otpStr, false⟩ t2 tok2).1 =
        LoginResult.wrongOtp := by
    intro rs2 hA hB
    have hst2 : checkBlockedStep (hGet rs2.customer_login phone) t2 =
        Except.ok emptyStatus := by
      rw [hA, hcp, hGet_hDel_self]
      rfl
    have hchk2 : checkOtpCred rs2.otp c.phone otpStr t2 =
        OtpCheck.checked false rs2.otp := by
      rw [hB]
      simp [checkOtpCred, hGet_hDel_self]
    rw [loginCustomer_otp_eq db rs2 _ t2 tok2 c emptyStatus otpStr hdev hc hst2
        htrust rfl ho0, hchk2]
    simp [loginFailure, recordFailure, emptyStatus]
  refine ⟨?_, ?_⟩
  · have h2 := e2 ((loginCustomer db rs ⟨phone, deviceId, none, some otpStr, false⟩ t1 tok1).2.1) hcl1 hotp1
    simp [loginRuns, hfst1, hdb1, h2]
  · rw [hotp1, hGet_hDel_self]

/-- Concrete ephemeral store with a code 123456 for the phone, expiring at
instant 200, used by the otp witnesses. -/
def wrsOtp : RedisState :=
  { customers := [], tokens := [], otp := [(998901234567, ⟨123456, 200⟩)],
    customer_login := [] }

/-- Witness for C4 at a concrete input: the matching code at instant 100
logs in and is gone; the resubmission at instant 150 is WRONG_OTP. -/
theorem loginCustomer_otp_single_use_witness :
    (loginRuns wdbTrusted wrsOtp ⟨998901234567, "dev1", none, some "123456", false⟩
        [(100, "T1"), (150, "T2")]).1 =
      [LoginResult.ok "T1", LoginResult.wrongOtp] ∧
    hGet (loginCustomer wdbTrusted wrsOtp
        ⟨998901234567, "dev1", none, some "123456", false⟩
        100 "T1").2.1.otp wcust.phone = none :=
  loginCustomer_otp_single_use wdbTrusted wrsOtp 998901234567 "dev1" "123456"
    "T1" "T2" wcust ⟨123456, 200⟩ 100 150 (by decide) (by decide) rfl rfl rfl
    rfl (by decide) (by decide)

/-- C5 counterexample: at the instant exactly equal to the stored expiry
(expiry ≤ now with equality), submitting the matching code does not signal
EXPIRED_OTP and does not delete the record — the check lands in the invalid
branch (WRONG_OTP) and the otp record survives. -/
theorem loginCustomer_expiry_boundary_counterexample :
    (loginCustomer wdbTrusted wrsOtp
        ⟨998901234567, "dev1", none, some "123456", false⟩ 200 "T1").1 =
      LoginResult.wrongOtp ∧
    hGet (loginCustomer wdbTrusted wrsOtp
        ⟨998901234567, "dev1", none, some "123456", false⟩ 200 "T1").2.1.otp
      998901234567 = some ⟨123456, 200⟩ := by
  decide

/-- C5 amended: for a stored one-time code whose expiry instant is strictly
before the current instant, otp validation deletes the stored record and
signals EXPIRED_OTP, for every submitted code including the matching one (at
an instant exactly equal to the expiry the code is instead judged invalid
and the record is kept). -/
theorem loginCustomer_expired_otp (db : DBState) (rs : RedisState)
    (phone : Nat) (deviceId otpStr tok : String) (c : Customer)
    (o : OtpRecord) (st : LoginStatus) (now : Nat)
    (hdev : deviceId ≠ "") (ho0 : otpStr ≠ "")
    (hc : findCustomerByPhone db phone = some c)
    (hst : checkBlockedStep (hGet rs.customer_login phone) now = Except.ok st)
    (htrust : deviceTrusted db deviceId phone = true)
    (hotp : hGet rs.otp c.phone = some o)
    (hexp : o.expiresAt < now) :
    loginCustomer db rs ⟨phone, deviceId, none, some otpStr, false⟩ now tok =
      (LoginResult.expiredOtp, { rs with otp := hDel rs.otp c.phone }, db) := by
  rw [loginCustomer_otp_eq db rs _ now tok c st otpStr hdev hc hst htrust rfl ho0]
  simp [checkOtpCred, hotp, hexp]

/-- Witness for C5 amended at a concrete input: the code expired at 200,
submitted (matching) at 300. -/
theorem loginCustomer_expired_otp_witness :
    loginCustomer wdbTrusted wrsOtp
        ⟨998901234567, "dev1", none, some "123456", false⟩ 300 "T1" =
      (LoginResult.expiredOtp,
       { wrsOtp with otp := hDel wrsOtp.otp wcust.phone }, wdbTrusted) :=
  loginCustomer_expired_otp wdbTrusted wrsOtp 998901234567 "dev1" "123456"
    "T1" wcust ⟨123456, 200⟩ emptyStatus 300 (by decide) (by decide) rfl rfl
    rfl rfl (by decide)

/-- C9: an expired one-time code short-circuits loginCustomer with
EXPIRED_OTP before the failed-attempt recording step runs: the customer_login
record for the phone is exactly as before, so the submission does not count
toward lockout. -/
theorem loginCustomer_expired_otp_skips_lockout (db : DBState)
    (rs : RedisState) (phone : Nat) (deviceId otpStr tok : String)
    (c : Customer) (o : OtpRecord) (st : LoginStatus) (now : Nat)
    (hdev : deviceId ≠ "") (ho0 : otpStr ≠ "")
    (hc : findCustomerByPhone db phone = some c)
    (hst : checkBlockedStep (hGet rs.customer_login phone) now = Except.ok st)
    (htrust : deviceTrusted db deviceId phone = true)
    (hotp : hGet rs.otp c.phone = some o)
    (hexp : o.expiresAt < now) :
    (loginCustomer db rs ⟨phone, deviceId, none, some otpStr, false⟩ now tok).1 =
      LoginResult.expiredOtp ∧
    (loginCustomer db rs ⟨phone, deviceId, none, some otpStr, false⟩ now tok).2.1.customer_login =
      rs.customer_login := by
  rw [loginCustomer_otp_eq db rs _ now tok c st otpStr hdev hc hst htrust rfl ho0]
  simp [checkOtpCred, hotp, hexp]

/-- Witness for C9 at a concrete input: expired code at instant 300, block
record untouched. -/
theorem loginCustomer_expired_otp_skips_lockout_witness :
    (loginCustomer wdbTrusted wrsOtp
        ⟨998901234567, "dev1", none, some "999999", false⟩ 300 "T1").1 =
      LoginResult.expiredOtp ∧
    (loginCustomer wdbTrusted wrsOtp
        ⟨998901234567, "dev1", none, some "999999", false⟩ 300 "T1").2.1.customer_login =
      wrsOtp.customer_login :=
  loginCustomer_expired_otp_skips_lockout wdbTrusted wrsOtp 998901234567
    "dev1" "999999" "T1" wcust ⟨123456, 200⟩ emptyStatus 300 (by decide)
    (by decide) rfl rfl rfl rfl (by decide)

/-- C6: issuing a new token on a successful login first deletes the old
token record found through the sessions-by-identity index, so at most one
live token exists per identity: after the login, the previously issued token
is absent from the tokens hash and validating it at any instant is Invalid. -/
theorem loginCustomer_supersedes_token (db : DBState) (rs : RedisState)
    (phone : Nat) (deviceId pw oldTok newTok : String) (c : Customer)
    (now : Nat)
    (hdev : deviceId ≠ "") (hpw0 : pw ≠ "")
    (hc : findCustomerByPhone db phone = some c)
    (hclear : hGet rs.customer_login phone = none)
    (htrust : deviceTrusted db deviceId phone = false)
    (hcmp : bcryptCompare pw c.hashed_password = true)
    (hold : hGet rs.customers c.id = some oldTok)
    (hne : oldTok ≠ newTok) :
    (loginCustomer db rs ⟨phone, deviceId, some pw, none, false⟩ now newTok).1 =
      LoginResult.ok newTok ∧
    hGet (loginCustomer db rs ⟨phone, deviceId, some pw, none, false⟩ now newTok).2.1.tokens
      oldTok = none ∧
    (∀ t : Nat, validateToken
      (loginCustomer db rs ⟨phone, deviceId, some pw, none, false⟩ now newTok).2.1
      oldTok t = none) := by
  have hst1 : checkBlockedStep (hGet rs.customer_login phone) now =
      Except.ok emptyStatus := by
    rw [hclear]
    rfl
  have e1 : loginCustomer db rs ⟨phone, deviceId, some pw, none, false⟩ now newTok =
      loginSuccess db rs ⟨phone, deviceId, some pw, none, false⟩ c now newTok := by
    rw [loginCustomer_password_ok_eq db rs _ now newTok c emptyStatus pw hdev hc
        hst1 htrust rfl hpw0 hcmp]
  have hgone : hGet (loginSuccess db rs ⟨phone, deviceId, some pw, none, false⟩ c now newTok).2.1.tokens oldTok = none := by
    simp only [loginSuccess, issueToken, hold]
    rw [hGet_hSet_ne _ _ _ _ hne, hGet_hDel_self]
  refine ⟨?_, ?_, ?_⟩
  · rw [e1]
    simp [loginSuccess]
  · rw [e1]
    exact hgone
  · intro t
    rw [e1]
    unfold validateToken
    rw [hgone]

/-- Concrete ephemeral store holding a live old token for the customer, used
by the C6 witness. -/
def wrsOldTok : RedisState :=
  { customers := [(1, "OLD")],
    tokens := [("OLD", ⟨1, "customer", 999999⟩)], otp := [],
    customer_login := [] }

/-- Witness for C6 at a concrete input: a correct-password login issuing NEW
revokes OLD; validating OLD at instant 20 is Invalid. -/
theorem loginCustomer_supersedes_token_witness :
    (loginCustomer wdb wrsOldTok
        ⟨998901234567, "dev1", some "secret1", none, false⟩ 10 "NEW").1 =
      LoginResult.ok "NEW" ∧
    hGet (loginCustomer wdb wrsOldTok
        ⟨998901234567, "dev1", some "secret1", none, false⟩ 10 "NEW").2.1.tokens
      "OLD" = none ∧
    (∀ t : Nat, validateToken
      (loginCustomer wdb wrsOldTok
        ⟨998901234567, "dev1", some "secret1", none, false⟩ 10 "NEW").2.1
      "OLD" t = none) :=
  loginCustomer_supersedes_token wdb wrsOldTok 998901234567 "dev1" "secret1"
    "OLD" "NEW" wcust 10 (by decide) (by decide) rfl rfl rfl (by decide) rfl
    (by decide)

/-- C7: registration failures detected before the identity row is created
(validation, phone already taken) mutate nothing; any failure of a step
after the row exists (either token write, trusted-device creation) ends
with the just-created row deleted again (compensation) and the original
error — never a success — reported. -/
theorem registerCustomer_rollback (db : DBState) (rs : RedisState)
    (inp : RegInput) (now newId : Nat) (newToken : String) (f : RegFailures) :
    (validRegInput inp = false →
      registerCustomer db rs inp now newId newToken f =
        (RegResult.validationError, rs, db)) ∧
    (∀ c : Customer, validRegInput inp = true →
      findCustomerByPhone db inp.phone = some c →
      registerCustomer db rs inp now newId newToken f =
        (RegResult.numberTaken, rs, db)) ∧
    (validRegInput inp = true →
      findCustomerByPhone db inp.phone = none →
      f.failCreate = false →
      (f.failCustomerTokenSet || f.failTokenRecordSet ||
        (inp.trust && f.failDeviceCreate)) = true →
      (registerCustomer db rs inp now newId newToken f).1 =
        RegResult.storeError ∧
      findCustomerById (registerCustomer db rs inp now newId newToken f).2.2
        newId = none) := by
  refine ⟨?_, ?_, ?_⟩
  · intro hv
    unfold registerCustomer
    simp [hv]
  · intro c hv hfound
    unfold registerCustomer
    simp [hv, hfound]
  · intro hv hfree hcr hfail
    unfold registerCustomer
    rw [hv, hfree, hcr]
    simp only [Bool.not_true, Bool.false_eq_true, if_false, ite_false,
      Bool.or_eq_true, Bool.and_eq_true] at hfail ⊢
    rcases hfail with (h1 | h2) | h3
    · simp [h1, findCustomerById_deleteCustomerById]
    · by_cases h1 : f.failCustomerTokenSet = true
      · simp [h1, findCustomerById_deleteCustomerById]
      · simp only [Bool.not_eq_true] at h1
        simp [h1, h2, findCustomerById_deleteCustomerById]
    · by_cases h1 : f.failCustomerTokenSet = true
      · simp [h1, findCustomerById_deleteCustomerById]
      · by_cases h2 : f.failTokenRecordSet = true
        · simp only [Bool.not_eq_true] at h1
          simp [h1, h2, findCustomerById_deleteCustomerById]
        · simp only [Bool.not_eq_true] at h1 h2
          simp [h1, h2, h3.1, h3.2, findCustomerById_deleteCustomerById]

/-- Witness for C7 at a concrete input: a valid registration whose second
redis write fails ends as storeError with no row for the fresh id. -/
theorem registerCustomer_rollback_witness :
    (registerCustomer wdb wrs
        ⟨"newuser", 998905550101, "abc123", false, none⟩ 0 77 "RT"
        ⟨false, false, true, false⟩).1 = RegResult.storeError ∧
    findCustomerById (registerCustomer wdb wrs
        ⟨"newuser", 998905550101, "abc123", false, none⟩ 0 77 "RT"
        ⟨false, false, true, false⟩).2.2 77 = none :=
  (registerCustomer_rollback wdb wrs
      ⟨"newuser", 998905550101, "abc123", false, none⟩ 0 77 "RT"
      ⟨false, false, true, false⟩).2.2 (by decide) rfl rfl (by decide)

/-- C8: the unauthenticated otp-retrieval endpoint answers from the otp hash
alone — for every phone it leaves the store untouched and sends the stored
code rendered as text when a record exists (no expiry check, no deletion),
and an empty body otherwise. -/
theorem getOtpFromSMS_discloses_code (rs : RedisState) (phone : Nat) :
    (getOtpFromSMS rs phone).2 = rs ∧
    (getOtpFromSMS rs phone).1 =
      (match hGet rs.otp phone with
       | none => ""
       | some o => toString o.code) := by
  cases h : hGet rs.otp phone <;> simp [getOtpFromSMS, h]

/-- C10: whenever the profile read responds successfully, the serialized
response carries no hashed_password field — the handler deletes the field
from the fetched row before responding. -/
theorem getCustomerProfile_no_hashed_password (db : DBState) (rs : RedisState)
    (token : String) (now : Nat) (fields : List (String × String))
    (h : getCustomerProfile db rs token now = ProfileResult.ok fields) :
    ¬ ("hashed_password" ∈ fields.map Prod.fst) := by
  unfold getCustomerProfile at h
  cases hv : validateToken rs token now with
  | none =>
      rw [hv] at h
      exact absurd h (by simp)
  | some p =>
      obtain ⟨cid, role⟩ := p
      rw [hv] at h
      dsimp only at h
      by_cases hr : role = "customer"
      · rw [if_pos hr] at h
        cases hf : findCustomerById db cid with
        | none =>
            rw [hf] at h
            exact absurd h (by simp)
        | some c =>
            rw [hf] at h
            dsimp only at h
            injection h with h3
            rw [← h3]
            simp [customerJson]
      · rw [if_neg hr] at h
        exact absurd h (by simp)

/-- Concrete ephemeral store holding a valid customer token, used by the C10
witness. -/
def wrsProfile : RedisState :=
  { customers := [], tokens := [("PT", ⟨1, "customer", 5000⟩)], otp := [],
    customer_login := [] }

/-- Witness for C10 at a concrete input: the profile response of the stored
customer has no hashed_password key. -/
theorem getCustomerProfile_no_hashed_password_witness :
    ¬ ("hashed_password" ∈
      ([("id", "1"), ("phone", "998901234567"), ("name", "user"),
        ("image_url", "null")] : List (String × String)).map Prod.fst) :=
  getCustomerProfile_no_hashed_password wdb wrsProfile "PT" 10
    [("id", "1"), ("phone", "998901234567"), ("name", "user"),
     ("image_url", "null")] (by decide)
